import Mathlib

/-!
Shallow embedding of the mongodb-proxy HTTP gateway (three near-duplicate
Express handler variants: `src/src/app.js`, `src/unnamed/part_001` with
timestamps and `_id` coercion in `/find`, and the older `src/unnamed/part_000`).

Modelling conventions:
* JSON values are the inductive `JVal`; an absent field is `Option.none`
  at the access site, mirroring JavaScript `undefined` from destructuring.
* JavaScript truthiness (`!x`) is `truthy`/`truthyOpt`; an empty string,
  `0`, `NaN`, `null`, `false` and an absent field all count as falsy,
  matching the source's presence checks.
* BSON `ObjectId` values are the `JVal.oid` constructor; `new ObjectId(s)`
  is `objectIdOf`, which fails on strings that are not 24 hex characters.
* `Date` values are `JVal.vdate` carrying an abstract timestamp.
* The external MongoDB client is modelled as a small document store
  (`DbState`) plus a fault oracle `Beh`: the k-th client call may be told
  to reject with a given message, which models driver/server errors.
  Aggregation pipelines and index structures belong to the external
  engine and are out of scope (spec sections 1 and 4): `opAggregate`
  returns an empty array and index creation only leaves a trace entry.
  Of the update operators only `$set` is interpreted, which is the only
  operator the routes construct.
-/

/-- JSON-ish runtime values flowing through the proxy. -/
inductive JVal where
  | vnull
  | vbool (b : Bool)
  | vnum (n : Int)
  | vnan
  | vstr (s : String)
  | vdate (t : Nat)
  | oid (h : String)
  | varr (xs : List JVal)
  | vobj (fs : List (String × JVal))

/-- A document is an association list of fields (JS object key order). -/
abbrev Doc := List (String × JVal)

mutual

/-- Structural value equality, used for MongoDB query matching. -/
def JVal.beq : JVal → JVal → Bool
  | .vnull, .vnull => true
  | .vbool a, .vbool b => a == b
  | .vnum a, .vnum b => a == b
  | .vnan, .vnan => true
  | .vstr a, .vstr b => a == b
  | .vdate a, .vdate b => a == b
  | .oid a, .oid b => a == b
  | .varr a, .varr b => JVal.arrBeq a b
  | .vobj a, .vobj b => JVal.objBeq a b
  | _, _ => false

/-- Elementwise equality of value arrays. -/
def JVal.arrBeq : List JVal → List JVal → Bool
  | [], [] => true
  | x :: xs, y :: ys => JVal.beq x y && JVal.arrBeq xs ys
  | _, _ => false

/-- Fieldwise equality of objects (order-sensitive, as BSON is). -/
def JVal.objBeq : List (String × JVal) → List (String × JVal) → Bool
  | [], [] => true
  | (k, x) :: xs, (l, y) :: ys => k == l && JVal.beq x y && JVal.objBeq xs ys
  | _, _ => false

end

/-- Look a key up in an association list (first occurrence). -/
def getEntry {α : Type} : List (String × α) → String → Option α
  | [], _ => none
  | (k', v) :: rest, k => if k' = k then some v else getEntry rest k

/-- Set a key in an association list: replace the first occurrence in
place (JS object key-order behaviour) or append a fresh key. -/
def setEntry {α : Type} : List (String × α) → String → α → List (String × α)
  | [], k, v => [(k, v)]
  | (k', v') :: rest, k, v =>
      if k' = k then (k, v) :: rest else (k', v') :: setEntry rest k v

/-- Remove a key from an association list (first occurrence). -/
def removeEntry {α : Type} : List (String × α) → String → List (String × α)
  | [], _ => []
  | (k', v') :: rest, k =>
      if k' = k then rest else (k', v') :: removeEntry rest k

/-- JavaScript truthiness of a value. -/
def truthy : JVal → Bool
  | .vnull => false
  | .vbool b => b
  | .vnum n => n != 0
  | .vnan => false
  | .vstr s => s ≠ ""
  | .vdate _ => true
  | .oid _ => true
  | .varr _ => true
  | .vobj _ => true

/-- Truthiness of a possibly absent value (`undefined` is falsy). -/
def truthyOpt : Option JVal → Bool
  | none => false
  | some v => truthy v

/-- A JavaScript number: an integer or NaN.  (The routes only ever
produce integer arithmetic; fractional values are out of scope.) -/
inductive JsNum where
  | nan
  | int (n : Int)

/-- JS `Number(x)` coercion.  `undefined` is NaN, `null` is 0, strings
parse as integers (empty string is 0), dates coerce to their timestamp;
array/object coercion is simplified to NaN (no route depends on it). -/
def toNumber : Option JVal → JsNum
  | none => .nan
  | some .vnull => .int 0
  | some (.vbool b) => .int (if b then 1 else 0)
  | some (.vnum n) => .int n
  | some .vnan => .nan
  | some (.vstr s) =>
      if s = "" then .int 0
      else match s.toInt? with
        | some n => .int n
        | none => .nan
  | some (.vdate t) => .int t
  | some (.oid _) => .nan
  | some (.varr _) => .nan
  | some (.vobj _) => .nan

/-- JS multiplication: NaN propagates. -/
def jsMul : JsNum → JsNum → JsNum
  | .int a, .int b => .int (a * b)
  | _, _ => .nan

/-- Is `pat` a prefix of the character list?  If so, return the rest. -/
def stripAt : List Char → List Char → Option (List Char)
  | [], rest => some rest
  | _ :: _, [] => none
  | p :: ps, c :: cs => if p = c then stripAt ps cs else none

/-- Remove the first occurrence of `pat` from the character list. -/
def removeFirstOcc (pat : List Char) : List Char → List Char
  | [] => []
  | c :: cs =>
      match stripAt pat (c :: cs) with
      | some rest => rest
      | none => c :: removeFirstOcc pat cs

/-- JS `s.replace(pat, '')` with a string pattern: remove only the
FIRST occurrence of `pat` (the source only ever replaces by the empty
string). -/
def replaceFirst (s pat : String) : String :=
  ⟨removeFirstOcc pat.data s.data⟩

/-- Hex digit test for ObjectId validation. -/
def isHexChar (c : Char) : Bool :=
  c.isDigit || ('a' ≤ c && c ≤ 'f') || ('A' ≤ c && c ≤ 'F')

/-- Deterministic fresh ObjectId hex string from a counter. -/
def freshHex (n : Nat) : String :=
  let s := toString n
  (List.replicate (24 - s.length) '0').asString ++ s

/-- `new ObjectId(x)`: an ObjectId passes through, a string must be
24 hex characters, an integer builds a timestamp id; anything else
throws a BSONError. -/
def objectIdOf : JVal → Except String JVal
  | .oid h => .ok (.oid h)
  | .vstr s =>
      if s.data.length = 24 && s.data.all isHexChar then .ok (.oid s)
      else .error "input must be a 24 character hex string, 12 byte Uint8Array, or an integer"
  | .vnum n => .ok (.oid (freshHex n.natAbs))
  | _ => .error "input must be a 24 character hex string, 12 byte Uint8Array, or an integer"

/-! ## The external MongoDB client, modelled as a document store -/

/-- State of the external database: databases by name, each a list of
collections by name, each a list of documents; plus a counter feeding
fresh ObjectIds. -/
structure DbState where
  dbs : List (String × List (String × List Doc))
  nextId : Nat

/-- One client call, recorded in the per-request trace. -/
inductive DbOp where
  | createCollection (dbn coln : String)
  | createIndex (dbn coln : String)
  | createSearchIndex (dbn coln : String)
  | dropColl (dbn coln : String)
  | count (dbn coln : String)
  | find (dbn coln : String)
  | aggregate (dbn coln : String)
  | insertOne (dbn coln : String)
  | insertMany (dbn coln : String)
  | findOneAndUpdate (dbn coln : String)
  | findOneAndDelete (dbn coln : String)
deriving DecidableEq

/-- The documents of a collection (MongoDB materialises databases and
collections on demand, so a missing name reads as empty). -/
def getDocs (st : DbState) (dbn coln : String) : List Doc :=
  getEntry ((getEntry st.dbs dbn).getD []) coln |>.getD []

/-- Replace the documents of a collection. -/
def putDocs (st : DbState) (dbn coln : String) (docs : List Doc) : DbState :=
  { st with dbs := setEntry st.dbs dbn (setEntry ((getEntry st.dbs dbn).getD []) coln docs) }

/-- Does a collection exist by name? -/
def collExists (st : DbState) (dbn coln : String) : Bool :=
  (getEntry ((getEntry st.dbs dbn).getD []) coln).isSome

/-- MongoDB equality matching of a query filter against a document:
every filter field must equal the document's field (a `null` filter
value also matches an absent field).  Query operators are out of scope:
no route forwards a client filter containing one in the verified
properties. -/
def docMatches (filter : JVal) (d : Doc) : Bool :=
  match filter with
  | .vobj fs =>
      fs.all fun kv =>
        match getEntry d kv.1 with
        | some v => JVal.beq v kv.2
        | none => JVal.beq kv.2 .vnull
  | _ => false

/-- Replace the first document satisfying `p` by its image under `f`. -/
def updateFirst (p : Doc → Bool) (f : Doc → Doc) : List Doc → List Doc
  | [] => []
  | d :: ds => if p d then f d :: ds else d :: updateFirst p f ds

/-- Remove the first document satisfying `p`. -/
def removeFirst (p : Doc → Bool) : List Doc → List Doc
  | [] => []
  | d :: ds => if p d then ds else d :: removeFirst p ds

/-- Apply a `$set` object to a document: each named field is written,
every other field is untouched. -/
def applySet (d : Doc) (u : Doc) : Doc :=
  u.foldl (fun acc kv => setEntry acc kv.1 kv.2) d

/-- Apply an update document.  Only the `$set` operator is interpreted
(the only one the verified routes construct); an update document with
no `$set` key leaves the document unchanged. -/
def applyUpdateDocument (u : Doc) (d : Doc) : Doc :=
  match getEntry u "$set" with
  | some (.vobj s) => applySet d s
  | _ => d

/-- `db.createCollection(name)`: errors if the name already exists. -/
def opCreateCollection (st : DbState) (dbn coln : String) : Except String (DbState × JVal) :=
  if collExists st dbn coln then .error ("Collection already exists. NS: " ++ dbn ++ "." ++ coln)
  else .ok (putDocs st dbn coln [], .vnull)

/-- `collection.drop()`: errors when the namespace is absent. -/
def opDrop (st : DbState) (dbn coln : String) : Except String (DbState × JVal) :=
  if collExists st dbn coln then
    .ok ({ st with dbs := setEntry st.dbs dbn (removeEntry ((getEntry st.dbs dbn).getD []) coln) },
         .vbool true)
  else .error "ns not found"

/-- `collection.count(filter)`. -/
def opCount (st : DbState) (dbn coln : String) (filter : JVal) : Except String (DbState × JVal) :=
  .ok (st, .vnum (((getDocs st dbn coln).filter (docMatches filter)).length))

/-- Cursor limit semantics: 0 means no limit, a negative limit returns
a single batch of at most the absolute value. -/
def limitTake (limit : Int) (l : List Doc) : List Doc :=
  if limit = 0 then l else l.take limit.natAbs

/-- `collection.find(filter).skip(s).limit(n).toArray()`.  A NaN or
negative skip is rejected by the server. -/
def opFind (st : DbState) (dbn coln : String) (filter : JVal) (skip : JsNum) (limit : Int) :
    Except String (DbState × JVal) :=
  match skip with
  | .nan => .error "Failed to parse skip"
  | .int s =>
      if s < 0 then .error "Skip value must be non-negative"
      else .ok (st, .varr ((limitTake limit
            (((getDocs st dbn coln).filter (docMatches filter)).drop s.toNat)).map .vobj))

/-- `collection.aggregate(pipeline).toArray()`: the aggregation engine
is external and out of scope; no verified property inspects its value. -/
def opAggregate (st : DbState) : Except String (DbState × JVal) :=
  .ok (st, .varr [])

/-- Insert a single document: an `_id` field is kept, otherwise the
driver assigns a fresh ObjectId (appended, as the driver serialises it). -/
def insertDoc (st : DbState) (dbn coln : String) (d : Doc) : DbState × JVal :=
  match getEntry d "_id" with
  | some v => (putDocs { st with nextId := st.nextId + 1 } dbn coln (getDocs st dbn coln ++ [d]), v)
  | none =>
      let idv := JVal.oid (freshHex st.nextId)
      (putDocs { st with nextId := st.nextId + 1 } dbn coln (getDocs st dbn coln ++ [d ++ [("_id", idv)]]),
       idv)

/-- `collection.insertOne(document)`. -/
def opInsertOne (st : DbState) (dbn coln : String) (d : Doc) : Except String (DbState × JVal) :=
  .ok ((insertDoc st dbn coln d).1,
       .vobj [("acknowledged", .vbool true), ("insertedId", (insertDoc st dbn coln d).2)])

/-- Insert several documents in order. -/
def insertAll (dbn coln : String) : DbState → List Doc → DbState
  | st, [] => st
  | st, d :: ds => insertAll dbn coln (insertDoc st dbn coln d).1 ds

/-- `collection.insertMany(documents)`. -/
def opInsertMany (st : DbState) (dbn coln : String) (ds : List Doc) : Except String (DbState × JVal) :=
  .ok (insertAll dbn coln st ds,
       .vobj [("acknowledged", .vbool true), ("insertedCount", .vnum ds.length)])

/-- `collection.findOneAndUpdate(filter, update, opts)`: returns the
pre-update document in the driver's `{ value: ... }` envelope (the
`returnNewDocument`/`returnOriginal` options the routes pass leave the
default pre-image behaviour). -/
def opFindOneAndUpdate (st : DbState) (dbn coln : String) (filter update : JVal) :
    Except String (DbState × JVal) :=
  .ok (match (getDocs st dbn coln).find? (docMatches filter) with
       | none => (st, .vobj [("value", .vnull)])
       | some d =>
           (putDocs st dbn coln (updateFirst (docMatches filter)
              (fun x => applyUpdateDocument (match update with | .vobj u => u | _ => []) x)
              (getDocs st dbn coln)),
            .vobj [("value", .vobj d)]))

/-- `collection.findOneAndDelete(filter)`. -/
def opFindOneAndDelete (st : DbState) (dbn coln : String) (filter : JVal) :
    Except String (DbState × JVal) :=
  .ok (match (getDocs st dbn coln).find? (docMatches filter) with
       | none => (st, .vobj [("value", .vnull)])
       | some d =>
           (putDocs st dbn coln (removeFirst (docMatches filter) (getDocs st dbn coln)),
            .vobj [("value", .vobj d)]))

/-! ## HTTP layer -/

/-- An incoming HTTP request after body parsing. -/
structure Request where
  method : String
  path : String
  authorization : Option String
  body : List (String × JVal)

/-- Environment configuration: the bearer-token allowlist
(`ALLOWED_TOKENS` split on commas; unset yields the empty list). -/
structure Env where
  allowedTokens : List String

/-- An HTTP response: status code and JSON (or text) body.  The two
response headers `/find` sets are not modelled; no verified property
mentions them. -/
structure Response where
  status : Nat
  body : JVal

/-- Build a response. -/
def respJ (status : Nat) (body : JVal) : Response := ⟨status, body⟩

/-- The flat `{ error: message }` body. -/
def errBody (m : String) : JVal := .vobj [("error", .vstr m)]

/-- Body of `GET /health`. -/
def healthBody : JVal := .vstr "🧩 MongoDB Proxy is running"

/-- The auth middleware's test (`app.js` lines 21-28): the header must
be present and truthy, and the header with its first `Bearer ` prefix
removed must be in the allowlist. -/
def authOk (env : Env) (h : Option String) : Bool :=
  match h with
  | none => false
  | some t => (t ≠ "") && env.allowedTokens.contains (replaceFirst t "Bearer ")

/-- String coercion used for database/collection names and template
literals; every verified property supplies string names. -/
def jname : JVal → String
  | .vstr s => s
  | .vnum n => toString n
  | .vbool b => toString b
  | _ => "[object]"

/-- Per-request run state of the db client: current store, number of
client calls made so far, and the trace of calls. -/
structure RunState where
  db : DbState
  calls : Nat
  trace : List DbOp

/-- Fault oracle: whether the k-th client call of the request rejects,
and with what message.  `noFail` is the oracle of a healthy database. -/
def Beh : Type := Nat → Option String

/-- The healthy oracle: no client call rejects. -/
def noFail : Beh := fun _ => none

/-- Perform one client call: consult the oracle, then the concrete
operation; record the call in the trace. -/
def dbCall (beh : Beh) (op : DbOp) (act : DbState → Except String (DbState × JVal))
    (rs : RunState) : Except String (JVal × RunState) :=
  match beh rs.calls with
  | some m => .error m
  | none =>
      match act rs.db with
      | .error m => .error m
      | .ok p => .ok (p.2, ⟨p.1, rs.calls + 1, rs.trace ++ [op]⟩)

/-! ## Routes of `src/src/app.js` (shared with `part_001` where the two
files agree verbatim) -/

/-- `if (index) await collection.createIndex(index)` and its search
twin (`app.js` lines 54-59): a conditional extra client call. -/
def maybeIndexCall (beh : Beh) (op : DbOp) (cond : Bool) (rs : RunState) :
    Except String RunState :=
  if cond then
    match dbCall beh op (fun st => .ok (st, .vnull)) rs with
    | .error e => .error e
    | .ok (_, rs1) => .ok rs1
  else .ok rs

/-- `POST /create` (`app.js` lines 49-61): create the collection, then
the requested index and search index, then answer 201 with a message
naming the collection. -/
def createRoute (beh : Beh) (dbn coln : String) (index searchIndex : Option JVal)
    (rs : RunState) : Except String (Response × RunState) :=
  match dbCall beh (.createCollection dbn coln) (fun st => opCreateCollection st dbn coln) rs with
  | .error e => .error e
  | .ok (_, rs1) =>
      match maybeIndexCall beh (.createIndex dbn coln) (truthyOpt index) rs1 with
      | .error e => .error e
      | .ok rs2 =>
          match maybeIndexCall beh (.createSearchIndex dbn coln) (truthyOpt searchIndex) rs2 with
          | .error e => .error e
          | .ok rs3 =>
              .ok (respJ 201 (.vobj [("message", .vstr ("Collection " ++ coln ++ " created"))]), rs3)

/-- `DELETE /delete` (`app.js` lines 63-69). -/
def deleteRoute (beh : Beh) (dbn coln : String) (rs : RunState) :
    Except String (Response × RunState) :=
  match dbCall beh (.dropColl dbn coln) (fun st => opDrop st dbn coln) rs with
  | .error e => .error e
  | .ok (_, rs1) =>
      .ok (respJ 200 (.vobj [("message", .vstr ("Collection " ++ coln ++ " deleted"))]), rs1)

/-- `skip = page ? Number(page) * pageSize : 0` (`app.js` line 74);
note the raw `pageSize` in the product. -/
def findSkip (page pageSize : Option JVal) : JsNum :=
  if truthyOpt page then jsMul (toNumber page) (toNumber pageSize) else .int 0

/-- `limit = pageSize ? Number(pageSize) || 10 : 10` (`app.js` line 75):
`||` replaces both NaN and 0 by the default 10. -/
def findLimit (pageSize : Option JVal) : Int :=
  if truthyOpt pageSize then
    match toNumber pageSize with
    | .int n => if n = 0 then 10 else n
    | .nan => 10
  else 10

/-- `filter || {}`. -/
def filterOr (filter : Option JVal) : JVal :=
  match filter with
  | some v => if truthy v then v else .vobj []
  | none => .vobj []

/-- `POST /find` (`app.js` lines 71-90): count the matches, then fetch
the page. -/
def findRoute (beh : Beh) (dbn coln : String) (filterV : JVal) (skip : JsNum) (limit : Int)
    (rs : RunState) : Except String (Response × RunState) :=
  match dbCall beh (.count dbn coln) (fun st => opCount st dbn coln filterV) rs with
  | .error e => .error e
  | .ok (_, rs1) =>
      match dbCall beh (.find dbn coln) (fun st => opFind st dbn coln filterV skip limit) rs1 with
      | .error e => .error e
      | .ok (r, rs2) => .ok (respJ 200 r, rs2)

/-- `POST /aggregate` (`app.js` lines 92-105): 400 when the pipeline is
missing, before any client call. -/
def aggregateRoute (beh : Beh) (dbn coln : String) (pipeline : Option JVal)
    (rs : RunState) : Except String (Response × RunState) :=
  if truthyOpt pipeline then
    match dbCall beh (.aggregate dbn coln) (fun st => opAggregate st) rs with
    | .error e => .error e
    | .ok (r, rs1) => .ok (respJ 200 r, rs1)
  else .ok (respJ 400 (errBody "Missing collection or pipeline param"), rs)

/-- `POST /insert` (`app.js` lines 107-117). -/
def insertRoute (beh : Beh) (dbn coln : String) (document : Option JVal)
    (rs : RunState) : Except String (Response × RunState) :=
  if truthyOpt document then
    match dbCall beh (.insertOne dbn coln)
        (fun st => opInsertOne st dbn coln
          (match document.getD .vnull with | .vobj d => d | _ => [])) rs with
    | .error e => .error e
    | .ok (r, rs1) => .ok (respJ 201 r, rs1)
  else .ok (respJ 400 (errBody "Missing collection or document in body"), rs)

/-- `POST /insertMany` (`app.js` lines 119-129): 400 unless `documents`
is a non-empty array. -/
def insertManyRoute (beh : Beh) (dbn coln : String) (documents : Option JVal)
    (rs : RunState) : Except String (Response × RunState) :=
  match documents with
  | some (.varr ds) =>
      if ds.length = 0 then .ok (respJ 400 (errBody "Missing collection or documents in body"), rs)
      else
        match dbCall beh (.insertMany dbn coln)
            (fun st => opInsertMany st dbn coln
              (ds.map (fun v => match v with | .vobj d => d | _ => []))) rs with
        | .error e => .error e
        | .ok (r, rs1) => .ok (respJ 201 r, rs1)
  | _ => .ok (respJ 400 (errBody "Missing collection or documents in body"), rs)

/-- `POST /findByIdAndUpdate` (`app.js` lines 131-147): 400 when id or
update is missing; the id is coerced with `new ObjectId(id)` (whose
failure is thrown to the error middleware) and the update is wrapped in
`$set`. -/
def updateRoute (beh : Beh) (dbn coln : String) (id update : Option JVal)
    (rs : RunState) : Except String (Response × RunState) :=
  if truthyOpt id && truthyOpt update then
    match objectIdOf (id.getD .vnull) with
    | .error m => .error m
    | .ok ov =>
        match dbCall beh (.findOneAndUpdate dbn coln)
            (fun st => opFindOneAndUpdate st dbn coln (.vobj [("_id", ov)])
              (.vobj [("$set", update.getD .vnull)])) rs with
        | .error e => .error e
        | .ok (r, rs1) => .ok (respJ 200 r, rs1)
  else .ok (respJ 400 (errBody "Missing collection, id or update in body"), rs)

/-- `DELETE /findByIdAndDelete` (`app.js` lines 149-159). -/
def deleteByIdRoute (beh : Beh) (dbn coln : String) (id : Option JVal)
    (rs : RunState) : Except String (Response × RunState) :=
  if truthyOpt id then
    match objectIdOf (id.getD .vnull) with
    | .error m => .error m
    | .ok ov =>
        match dbCall beh (.findOneAndDelete dbn coln)
            (fun st => opFindOneAndDelete st dbn coln (.vobj [("_id", ov)])) rs with
        | .error e => .error e
        | .ok (r, rs1) => .ok (respJ 200 r, rs1)
  else .ok (respJ 400 (errBody "Missing collection or id in body"), rs)

/-- Route dispatch of `src/src/app.js` after the two middlewares; an
unmatched verb+path falls through to Express's 404. -/
def routesApp (beh : Beh) (req : Request) (rs : RunState) :
    Except String (Response × RunState) :=
  let fld := fun k => getEntry req.body k
  let dbn := jname ((fld "dbName").getD .vnull)
  let coln := jname ((fld "collectionName").getD .vnull)
  if req.method = "POST" ∧ req.path = "/create" then
    createRoute beh dbn coln (fld "index") (fld "searchIndex") rs
  else if req.method = "DELETE" ∧ req.path = "/delete" then
    deleteRoute beh dbn coln rs
  else if req.method = "POST" ∧ req.path = "/find" then
    findRoute beh dbn coln (filterOr (fld "filter"))
      (findSkip (fld "page") (fld "pageSize")) (findLimit (fld "pageSize")) rs
  else if req.method = "POST" ∧ req.path = "/aggregate" then
    aggregateRoute beh dbn coln (fld "pipeline") rs
  else if req.method = "POST" ∧ req.path = "/insert" then
    insertRoute beh dbn coln (fld "document") rs
  else if req.method = "POST" ∧ req.path = "/insertMany" then
    insertManyRoute beh dbn coln (fld "documents") rs
  else if req.method = "POST" ∧ req.path = "/findByIdAndUpdate" then
    updateRoute beh dbn coln (fld "id") (fld "update") rs
  else if req.method = "DELETE" ∧ req.path = "/findByIdAndDelete" then
    deleteByIdRoute beh dbn coln (fld "id") rs
  else .ok (respJ 404 (.vstr ("Cannot " ++ req.method ++ " " ++ req.path)), rs)

/-- Result of handling one request: the response, and the db run state
when the request did not abort into the error middleware (`none` after
an abort; no verified property inspects state after a failure). -/
structure HResult where
  resp : Response
  run : Option RunState

/-- The whole `src/src/app.js` pipeline, in registration order:
the `GET /health` route (line 17, BEFORE any middleware), the auth
middleware (line 21, 401 `Unauthorized`), the body-field middleware
(line 30, 401 when `dbName` or `collectionName` is falsy), the routes,
and the error middleware (line 161, 500 with the error's message). -/
def handleApp (env : Env) (beh : Beh) (st : DbState) (req : Request) : HResult :=
  if req.method = "GET" ∧ req.path = "/health" then
    ⟨respJ 200 healthBody, some ⟨st, 0, []⟩⟩
  else if authOk env req.authorization = false then
    ⟨respJ 401 (errBody "Unauthorized"), some ⟨st, 0, []⟩⟩
  else if truthyOpt (getEntry req.body "collectionName") = false
       ∨ truthyOpt (getEntry req.body "dbName") = false then
    ⟨respJ 401 (errBody "Missing collection or db in body"), some ⟨st, 0, []⟩⟩
  else
    match routesApp beh req ⟨st, 0, []⟩ with
    | .ok (r, rs) => ⟨r, some rs⟩
    | .error m => ⟨respJ 500 (errBody m), none⟩

/-! ## Routes specific to `src/unnamed/part_001` (the timestamping
variant, with every handler wrapped in `asyncHandler`) -/

/-- `if (filter && filter._id) filter._id = new ObjectId(filter._id)`
(`part_001` lines 88-90); the coercion may throw. -/
def coerceFilterId (filter : Option JVal) : Except String (Option JVal) :=
  match filter with
  | some (.vobj fs) =>
      match getEntry fs "_id" with
      | some idv =>
          if truthy idv then
            match objectIdOf idv with
            | .error m => .error m
            | .ok ov => .ok (some (.vobj (setEntry fs "_id" ov)))
          else .ok (some (.vobj fs))
      | none => .ok (some (.vobj fs))
  | other => .ok other

/-- `POST /find` of `part_001` (lines 80-106): coerce `filter._id`,
then count and fetch as in the base variant. -/
def tsFindRoute (beh : Beh) (dbn coln : String) (filter : Option JVal)
    (skip : JsNum) (limit : Int) (rs : RunState) : Except String (Response × RunState) :=
  match coerceFilterId filter with
  | .error m => .error m
  | .ok filter' => findRoute beh dbn coln (filterOr filter') skip limit rs

/-- `POST /insert` of `part_001` (lines 126-142): the stored document
is `{ ...document, createdAt: now, updatedAt: now }` with one shared
`new Date()`. -/
def tsInsertRoute (beh : Beh) (now : Nat) (dbn coln : String) (document : Option JVal)
    (rs : RunState) : Except String (Response × RunState) :=
  if truthyOpt document then
    match dbCall beh (.insertOne dbn coln)
        (fun st => opInsertOne st dbn coln
          (setEntry (setEntry
              (match document.getD .vnull with | .vobj d => d | _ => [])
              "createdAt" (.vdate now))
            "updatedAt" (.vdate now))) rs with
    | .error e => .error e
    | .ok (r, rs1) => .ok (respJ 201 r, rs1)
  else .ok (respJ 400 (errBody "Missing collection or document in body"), rs)

/-- `POST /findByIdAndUpdate` of `part_001` (lines 159-178): the `$set`
object is `{ ...update, updatedAt: new Date() }`. -/
def tsUpdateRoute (beh : Beh) (now : Nat) (dbn coln : String) (id update : Option JVal)
    (rs : RunState) : Except String (Response × RunState) :=
  if truthyOpt id && truthyOpt update then
    match objectIdOf (id.getD .vnull) with
    | .error m => .error m
    | .ok ov =>
        match dbCall beh (.findOneAndUpdate dbn coln)
            (fun st => opFindOneAndUpdate st dbn coln (.vobj [("_id", ov)])
              (.vobj [("$set", .vobj (setEntry
                (match update.getD .vnull with | .vobj u => u | _ => [])
                "updatedAt" (.vdate now)))])) rs with
        | .error e => .error e
        | .ok (r, rs1) => .ok (respJ 200 r, rs1)
  else .ok (respJ 400 (errBody "Missing collection, id or update in body"), rs)

/-- `POST /findByIdAndPush` of `part_001` (lines 180-199): the client's
update object is passed through as the whole update document. -/
def pushRoute (beh : Beh) (dbn coln : String) (id update : Option JVal)
    (rs : RunState) : Except String (Response × RunState) :=
  if truthyOpt id && truthyOpt update then
    match objectIdOf (id.getD .vnull) with
    | .error m => .error m
    | .ok ov =>
        match dbCall beh (.findOneAndUpdate dbn coln)
            (fun st => opFindOneAndUpdate st dbn coln (.vobj [("_id", ov)])
              (update.getD .vnull)) rs with
        | .error e => .error e
        | .ok (r, rs1) => .ok (respJ 200 r, rs1)
  else .ok (respJ 400 (errBody "Missing collection, id or update in body"), rs)

/-- Route dispatch of `src/unnamed/part_001`. -/
def routesTs (beh : Beh) (now : Nat) (req : Request) (rs : RunState) :
    Except String (Response × RunState) :=
  let fld := fun k => getEntry req.body k
  let dbn := jname ((fld "dbName").getD .vnull)
  let coln := jname ((fld "collectionName").getD .vnull)
  if req.method = "POST" ∧ req.path = "/create" then
    createRoute beh dbn coln (fld "index") (fld "searchIndex") rs
  else if req.method = "DELETE" ∧ req.path = "/delete" then
    deleteRoute beh dbn coln rs
  else if req.method = "POST" ∧ req.path = "/find" then
    tsFindRoute beh dbn coln (fld "filter")
      (findSkip (fld "page") (fld "pageSize")) (findLimit (fld "pageSize")) rs
  else if req.method = "POST" ∧ req.path = "/aggregate" then
    aggregateRoute beh dbn coln (fld "pipeline") rs
  else if req.method = "POST" ∧ req.path = "/insert" then
    tsInsertRoute beh now dbn coln (fld "document") rs
  else if req.method = "POST" ∧ req.path = "/insertMany" then
    insertManyRoute beh dbn coln (fld "documents") rs
  else if req.method = "POST" ∧ req.path = "/findByIdAndUpdate" then
    tsUpdateRoute beh now dbn coln (fld "id") (fld "update") rs
  else if req.method = "POST" ∧ req.path = "/findByIdAndPush" then
    pushRoute beh dbn coln (fld "id") (fld "update") rs
  else if req.method = "DELETE" ∧ req.path = "/findByIdAndDelete" then
    deleteByIdRoute beh dbn coln (fld "id") rs
  else .ok (respJ 404 (.vstr ("Cannot " ++ req.method ++ " " ++ req.path)), rs)

/-- The whole `src/unnamed/part_001` pipeline: health route first, then
auth and body-field middlewares, then the routes; `asyncHandler` feeds
any rejection to the error middleware (lines 218-221), which answers
500 with the error's message. -/
def handleTs (env : Env) (beh : Beh) (now : Nat) (st : DbState) (req : Request) : HResult :=
  if req.method = "GET" ∧ req.path = "/health" then
    ⟨respJ 200 healthBody, some ⟨st, 0, []⟩⟩
  else if authOk env req.authorization = false then
    ⟨respJ 401 (errBody "Unauthorized"), some ⟨st, 0, []⟩⟩
  else if truthyOpt (getEntry req.body "collectionName") = false
       ∨ truthyOpt (getEntry req.body "dbName") = false then
    ⟨respJ 401 (errBody "Missing collection or db in body"), some ⟨st, 0, []⟩⟩
  else
    match routesTs beh now req ⟨st, 0, []⟩ with
    | .ok (r, rs) => ⟨r, some rs⟩
    | .error m => ⟨respJ 500 (errBody m), none⟩

/-! ## The `PUT /findByIdAndUpdate` route of `src/unnamed/part_000`
(lines 134-146).  This variant builds the query filter as
`{ _id: id }` from the RAW request id — it performs no ObjectId
coercion and does not even import ObjectId.  The route is modelled
against a live collection handle on the default database (named ""
here); the variant's module-level `db` binding is in fact never
assigned (its `connectDB` writes `app.locals.db` instead), which only
removes the operation entirely.  Failures are caught in-route and
answered 500 with the error's message. -/

def legacyUpdateRoute (beh : Beh) (collection id update : Option JVal)
    (rs : RunState) : Except String (Response × RunState) :=
  if truthyOpt collection && truthyOpt id && truthyOpt update then
    let coln := jname (collection.getD .vnull)
    match dbCall beh (.findOneAndUpdate "" coln)
        (fun st => opFindOneAndUpdate st "" coln
          (.vobj [("_id", id.getD .vnull)])
          (.vobj [("$set", update.getD .vnull)])) rs with
    | .error e => .ok (respJ 500 (errBody e), rs)
    | .ok (r, rs1) => .ok (respJ 200 r, rs1)
  else .ok (respJ 400 (errBody "Missing collection, id or update in body"), rs)

/-! ## Statement-side helper definitions -/

/-- The claim's unauthorized condition, in its own words: the bearer
token is missing (no Authorization header, or an empty one — JS
truthiness treats an empty header as absent) or the header with its
`Bearer ` prefix stripped is not in the environment-configured
allowlist. -/
def bearerMissingOrUnlisted (env : Env) (h : Option String) : Prop :=
  match h with
  | none => True
  | some t => t = "" ∨ replaceFirst t "Bearer " ∉ env.allowedTokens

/-- `Array.isArray(documents) && documents.length > 0`. -/
def isNonEmptyArray : Option JVal → Bool
  | some (.varr ds) => !ds.isEmpty
  | _ => false

/-- The effective limit exactly as the claim words it: `pageSize` when
present and a number, else 10. -/
def specFindLimit (pageSize : Option JVal) : Int :=
  match pageSize with
  | none => 10
  | some v =>
      match toNumber (some v) with
      | .nan => 10
      | .int n => n

/-- Length of the response body when it is an array. -/
def respArrLen (h : HResult) : Nat :=
  match h.resp.body with
  | .varr xs => xs.length
  | _ => 0

/-- The per-request trace of client calls, when the run completed. -/
def runTrace (h : HResult) : Option (List DbOp) :=
  h.run.map RunState.trace

/-- The documents of a collection after the run (empty if the run
aborted; claims only use it on successful runs). -/
def runDocs (h : HResult) (dbn coln : String) : List Doc :=
  match h.run with
  | some rs => getDocs rs.db dbn coln
  | none => []

/-! ## Association-list and `$set` lemmas -/

theorem getEntry_setEntry_self {α : Type} (l : List (String × α)) (k : String) (v : α) :
    getEntry (setEntry l k v) k = some v := by
  induction l with
  | nil => simp [setEntry, getEntry]
  | cons hd tl ih =>
      obtain ⟨k0, v0⟩ := hd
      by_cases hk : k0 = k
      · simp [setEntry, getEntry, hk]
      · simpa [setEntry, getEntry, hk] using ih

theorem getEntry_setEntry_ne {α : Type} (l : List (String × α)) (k k' : String) (v : α)
    (hne : k' ≠ k) : getEntry (setEntry l k v) k' = getEntry l k' := by
  induction l with
  | nil =>
      have : ¬ k = k' := fun h => hne h.symm
      simp [setEntry, getEntry, this]
  | cons hd tl ih =>
      obtain ⟨k0, v0⟩ := hd
      by_cases hk : k0 = k
      · subst hk
        have : ¬ k0 = k' := fun h => hne h.symm
        simp [setEntry, getEntry, this]
      · by_cases hk' : k0 = k'
        · simp [setEntry, getEntry, hk, hk', hne]
        · simpa [setEntry, getEntry, hk, hk'] using ih

theorem getEntry_append_of_some {α : Type} (l m : List (String × α)) (k : String) (v : α)
    (h : getEntry l k = some v) : getEntry (l ++ m) k = some v := by
  induction l with
  | nil => simp [getEntry] at h
  | cons hd tl ih =>
      obtain ⟨k0, v0⟩ := hd
      by_cases hk : k0 = k
      · simpa [getEntry, hk] using h
      · simp [getEntry, hk] at h ⊢
        exact ih h

theorem getEntry_append_of_none {α : Type} (l m : List (String × α)) (k : String)
    (h : getEntry l k = none) : getEntry (l ++ m) k = getEntry m k := by
  induction l with
  | nil => simp [getEntry]
  | cons hd tl ih =>
      obtain ⟨k0, v0⟩ := hd
      by_cases hk : k0 = k
      · simp [getEntry, hk] at h
      · simp [getEntry, hk] at h ⊢
        exact ih h

theorem keys_setEntry_eq {α : Type} (l : List (String × α)) (k : String) (v : α) :
    (setEntry l k v).map Prod.fst =
      if k ∈ l.map Prod.fst then l.map Prod.fst else l.map Prod.fst ++ [k] := by
  induction l with
  | nil => simp [setEntry]
  | cons hd tl ih =>
      obtain ⟨k0, v0⟩ := hd
      by_cases hk : k0 = k
      · subst hk
        simp [setEntry]
      · have hne : ¬ k = k0 := fun h => hk h.symm
        by_cases hmem : k ∈ tl.map Prod.fst
        · simp [setEntry, hk, ih, hmem, hne]
        · simp [setEntry, hk, ih, hmem, hne]

theorem nodup_keys_setEntry {α : Type} (l : List (String × α)) (k : String) (v : α)
    (h : (l.map Prod.fst).Nodup) : ((setEntry l k v).map Prod.fst).Nodup := by
  rw [keys_setEntry_eq]
  by_cases hmem : k ∈ l.map Prod.fst
  · simpa [hmem] using h
  · rw [if_neg hmem, List.nodup_append]
    refine ⟨h, List.nodup_singleton k, fun a ha hb => ?_⟩
    simp only [List.mem_singleton] at hb
    exact hmem (hb ▸ ha)

/-- Frame property of `$set`: a field not named in the `$set` object is
unchanged. -/
theorem applySet_getEntry_not_mem (u : Doc) (d : Doc) (k : String)
    (h : k ∉ u.map Prod.fst) : getEntry (applySet d u) k = getEntry d k := by
  induction u generalizing d with
  | nil => simp [applySet]
  | cons hd tl ih =>
      obtain ⟨k0, v0⟩ := hd
      simp only [List.map_cons, List.mem_cons] at h
      push_neg at h
      show getEntry (applySet (setEntry d k0 v0) tl) k = getEntry d k
      rw [ih _ h.2, getEntry_setEntry_ne _ _ _ _ h.1]

/-- A field named in the `$set` object (with JS-object-unique keys)
receives exactly the named value. -/
theorem applySet_getEntry_mem (u : Doc) (d : Doc) (k : String) (v : JVal)
    (hnd : (u.map Prod.fst).Nodup) (h : getEntry u k = some v) :
    getEntry (applySet d u) k = some v := by
  induction u generalizing d with
  | nil => simp [getEntry] at h
  | cons hd tl ih =>
      obtain ⟨k0, v0⟩ := hd
      simp only [List.map_cons, List.nodup_cons] at hnd
      show getEntry (applySet (setEntry d k0 v0) tl) k = some v
      by_cases hk : k0 = k
      · subst hk
        simp [getEntry] at h
        subst h
        rw [applySet_getEntry_not_mem _ _ _ hnd.1, getEntry_setEntry_self]
      · simp [getEntry, hk] at h
        exact ih _ hnd.2 h

/-! ## Route status lemmas: no operation route ever answers 401 -/

theorem createRoute_ok_status {beh dbn coln i s rs r rs'}
    (h : createRoute beh dbn coln i s rs = .ok (r, rs')) : r.status = 201 := by
  unfold createRoute at h
  repeat' split at h
  all_goals cases h
  all_goals rfl

theorem deleteRoute_ok_status {beh dbn coln rs r rs'}
    (h : deleteRoute beh dbn coln rs = .ok (r, rs')) : r.status = 200 := by
  unfold deleteRoute at h
  repeat' split at h
  all_goals cases h
  all_goals rfl

theorem findRoute_ok_status {beh dbn coln fv sk lim rs r rs'}
    (h : findRoute beh dbn coln fv sk lim rs = .ok (r, rs')) : r.status = 200 := by
  unfold findRoute at h
  repeat' split at h
  all_goals cases h
  all_goals rfl

theorem aggregateRoute_ok_status {beh dbn coln p rs r rs'}
    (h : aggregateRoute beh dbn coln p rs = .ok (r, rs')) : r.status = 200 ∨ r.status = 400 := by
  unfold aggregateRoute at h
  repeat' split at h
  all_goals cases h
  all_goals simp [respJ]

theorem insertRoute_ok_status {beh dbn coln d rs r rs'}
    (h : insertRoute beh dbn coln d rs = .ok (r, rs')) : r.status = 201 ∨ r.status = 400 := by
  unfold insertRoute at h
  repeat' split at h
  all_goals cases h
  all_goals simp [respJ]

theorem insertManyRoute_ok_status {beh dbn coln d rs r rs'}
    (h : insertManyRoute beh dbn coln d rs = .ok (r, rs')) : r.status = 201 ∨ r.status = 400 := by
  unfold insertManyRoute at h
  repeat' split at h
  all_goals cases h
  all_goals simp [respJ]

theorem updateRoute_ok_status {beh dbn coln i u rs r rs'}
    (h : updateRoute beh dbn coln i u rs = .ok (r, rs')) : r.status = 200 ∨ r.status = 400 := by
  unfold updateRoute at h
  repeat' split at h
  all_goals cases h
  all_goals simp [respJ]

theorem deleteByIdRoute_ok_status {beh dbn coln i rs r rs'}
    (h : deleteByIdRoute beh dbn coln i rs = .ok (r, rs')) : r.status = 200 ∨ r.status = 400 := by
  unfold deleteByIdRoute at h
  repeat' split at h
  all_goals cases h
  all_goals simp [respJ]

/-- No route of `src/src/app.js` (nor the framework's 404 fallback)
produces a 401: only the two middlewares do. -/
theorem routesApp_ok_status_ne_401 {beh req rs r rs'}
    (h : routesApp beh req rs = .ok (r, rs')) : r.status ≠ 401 := by
  unfold routesApp at h
  repeat' split at h
  all_goals first
    | (have h2 := createRoute_ok_status h; omega)
    | (have h2 := deleteRoute_ok_status h; omega)
    | (have h2 := findRoute_ok_status h; omega)
    | (rcases aggregateRoute_ok_status h with h2 | h2 <;> omega)
    | (rcases insertRoute_ok_status h with h2 | h2 <;> omega)
    | (rcases insertManyRoute_ok_status h with h2 | h2 <;> omega)
    | (rcases updateRoute_ok_status h with h2 | h2 <;> omega)
    | (rcases deleteByIdRoute_ok_status h with h2 | h2 <;> omega)
    | (cases h; simp [respJ])

/-! ## Claim C1 -/

theorem authOk_eq_false_iff (env : Env) (h : Option String) :
    authOk env h = false ↔ bearerMissingOrUnlisted env h := by
  cases h with
  | none => simp [authOk, bearerMissingOrUnlisted]
  | some t =>
      simp only [authOk, bearerMissingOrUnlisted, List.contains, List.elem_eq_mem,
        Bool.and_eq_false_iff]
      constructor
      · rintro (ht | hm)
        · exact Or.inl (by simpa using ht)
        · exact Or.inr (by simpa using hm)
      · rintro (ht | hm)
        · exact Or.inl (by simpa using ht)
        · exact Or.inr (by simpa using hm)

/-- Claim C1: a request (other than the separately-registered
`GET /health`) is answered 401 exactly when its bearer token is missing
or not in the environment-configured allowlist, or when the required
`dbName` or `collectionName` body field is missing (falsy); in the
unauthorized case the body is `{ error: "Unauthorized" }` and no
database operation is performed (and none is performed for the
missing-field 401 either). -/
theorem claim1_status401_iff (env : Env) (beh : Beh) (st : DbState) (req : Request)
    (hnh : ¬ (req.method = "GET" ∧ req.path = "/health")) :
    ((handleApp env beh st req).resp.status = 401 ↔
      (bearerMissingOrUnlisted env req.authorization ∨
       truthyOpt (getEntry req.body "collectionName") = false ∨
       truthyOpt (getEntry req.body "dbName") = false))
    ∧ (bearerMissingOrUnlisted env req.authorization →
        (handleApp env beh st req).resp.body = errBody "Unauthorized" ∧
        (handleApp env beh st req).run = some ⟨st, 0, []⟩)
    ∧ (¬ bearerMissingOrUnlisted env req.authorization →
        (truthyOpt (getEntry req.body "collectionName") = false ∨
         truthyOpt (getEntry req.body "dbName") = false) →
        (handleApp env beh st req).run = some ⟨st, 0, []⟩) := by
  by_cases hauth : authOk env req.authorization = false
  · have hbm : bearerMissingOrUnlisted env req.authorization :=
      (authOk_eq_false_iff env req.authorization).mp hauth
    refine ⟨?_, fun _ => ?_, fun hnb _ => absurd hbm hnb⟩
    · constructor
      · intro _; exact Or.inl hbm
      · intro _
        simp [handleApp, if_neg hnh, hauth, respJ]
    · constructor <;> simp [handleApp, if_neg hnh, hauth, respJ]
  · have hnb : ¬ bearerMissingOrUnlisted env req.authorization :=
      fun hb => hauth ((authOk_eq_false_iff env req.authorization).mpr hb)
    by_cases hflds : truthyOpt (getEntry req.body "collectionName") = false
        ∨ truthyOpt (getEntry req.body "dbName") = false
    · refine ⟨?_, fun hb => absurd hb hnb, fun _ _ => ?_⟩
      · constructor
        · intro _; exact Or.inr hflds
        · intro _
          simp [handleApp, if_neg hnh, hauth, hflds, respJ]
      · simp [handleApp, if_neg hnh, hauth, hflds, respJ]
    · refine ⟨?_, fun hb => absurd hb hnb, fun _ hf => absurd hf hflds⟩
      constructor
      · intro h401
        exfalso
        simp only [handleApp, if_neg hnh, hauth, hflds, if_neg, if_false] at h401
        rcases hr : routesApp beh req ⟨st, 0, []⟩ with m | pr
        · rw [hr] at h401
          simp [respJ] at h401
        · obtain ⟨r, rs2⟩ := pr
          rw [hr] at h401
          simp at h401
          exact routesApp_ok_status_ne_401 hr h401
      · rintro (hb | hf)
        · exact absurd hb hnb
        · exact absurd hf hflds

/-- Witness for C1: a concrete token-less `POST /find` is answered 401. -/
theorem claim1_status401_iff_witness :
    (handleApp ⟨["t"]⟩ noFail ⟨[], 0⟩ ⟨"POST", "/find", none, []⟩).resp.status = 401 :=
  (claim1_status401_iff ⟨["t"]⟩ noFail ⟨[], 0⟩ ⟨"POST", "/find", none, []⟩
      (by simp)).1.mpr (Or.inl trivial)

/-! ## Claim C2 -/

/-- Claim C2: whenever the run of the matched route aborts with an
error — in particular whenever a database client call rejects — the
error middleware answers 500 with the error's message passed through
unmodified as the body's error field. -/
theorem claim2_db_error_passthrough (env : Env) (beh : Beh) (st : DbState) (req : Request)
    (m : String)
    (hnh : ¬ (req.method = "GET" ∧ req.path = "/health"))
    (hauth : authOk env req.authorization = true)
    (hcoll : truthyOpt (getEntry req.body "collectionName") = true)
    (hdb : truthyOpt (getEntry req.body "dbName") = true)
    (hrun : routesApp beh req ⟨st, 0, []⟩ = .error m) :
    (handleApp env beh st req).resp = respJ 500 (errBody m) := by
  simp [handleApp, if_neg hnh, hauth, hcoll, hdb, hrun]

/-- Witness for C2: a `POST /find` whose first client call (the count)
rejects with "boom" is answered 500 `{ error: "boom" }`. -/
theorem claim2_db_error_passthrough_witness :
    (handleApp ⟨["t"]⟩ (fun _ => some "boom") ⟨[], 0⟩
        ⟨"POST", "/find", some "Bearer t",
          [("dbName", .vstr "d"), ("collectionName", .vstr "c")]⟩).resp
      = respJ 500 (errBody "boom") :=
  claim2_db_error_passthrough ⟨["t"]⟩ (fun _ => some "boom") ⟨[], 0⟩
    ⟨"POST", "/find", some "Bearer t",
      [("dbName", .vstr "d"), ("collectionName", .vstr "c")]⟩ "boom"
    (by simp) (by decide) (by decide) (by decide) rfl

/-! ## Claim C3 (code bug) -/

/-- Claim C3 is contradicted by the code: in `src/src/app.js` (and in
`part_001`) the `GET /health` route is registered BEFORE the auth
middleware, so a `GET /health` carrying no Authorization header — with
a non-empty allowlist configured — is answered 200 with the running
message instead of the 401 the claim and the repository's own tests
(`tests/proxy.test.js`, "Rejects unauthorized requests") expect. -/
theorem claim3_health_no_auth_answers_200 :
    (handleApp ⟨["testtoken"]⟩ noFail ⟨[], 0⟩ ⟨"GET", "/health", none, []⟩).resp
      = respJ 200 healthBody := rfl

/-! ## Claim C4 -/

/-- Claim C4: an authorized request (body fields present) that is
missing its operation-specific parameter — `/aggregate` without a
pipeline, `/insert` without a document, `/insertMany` without a
non-empty documents array, `/findByIdAndUpdate` without an id or an
update, `/findByIdAndDelete` without an id — is answered 400 with an
error message, and no database operation is performed. -/
theorem claim4_missing_param_400 (env : Env) (beh : Beh) (st : DbState) (req : Request)
    (hauth : authOk env req.authorization = true)
    (hcoll : truthyOpt (getEntry req.body "collectionName") = true)
    (hdb : truthyOpt (getEntry req.body "dbName") = true) :
    (req.method = "POST" → req.path = "/aggregate" →
      truthyOpt (getEntry req.body "pipeline") = false →
      (handleApp env beh st req).resp = respJ 400 (errBody "Missing collection or pipeline param")
      ∧ (handleApp env beh st req).run = some ⟨st, 0, []⟩)
    ∧ (req.method = "POST" → req.path = "/insert" →
      truthyOpt (getEntry req.body "document") = false →
      (handleApp env beh st req).resp = respJ 400 (errBody "Missing collection or document in body")
      ∧ (handleApp env beh st req).run = some ⟨st, 0, []⟩)
    ∧ (req.method = "POST" → req.path = "/insertMany" →
      isNonEmptyArray (getEntry req.body "documents") = false →
      (handleApp env beh st req).resp = respJ 400 (errBody "Missing collection or documents in body")
      ∧ (handleApp env beh st req).run = some ⟨st, 0, []⟩)
    ∧ (req.method = "POST" → req.path = "/findByIdAndUpdate" →
      (truthyOpt (getEntry req.body "id") = false ∨ truthyOpt (getEntry req.body "update") = false) →
      (handleApp env beh st req).resp = respJ 400 (errBody "Missing collection, id or update in body")
      ∧ (handleApp env beh st req).run = some ⟨st, 0, []⟩)
    ∧ (req.method = "DELETE" → req.path = "/findByIdAndDelete" →
      truthyOpt (getEntry req.body "id") = false →
      (handleApp env beh st req).resp = respJ 400 (errBody "Missing collection or id in body")
      ∧ (handleApp env beh st req).run = some ⟨st, 0, []⟩) := by
  refine ⟨fun hm hp hmiss => ?_, fun hm hp hmiss => ?_, fun hm hp hmiss => ?_,
    fun hm hp hmiss => ?_, fun hm hp hmiss => ?_⟩
  · constructor <;>
      simp [handleApp, hm, hp, hauth, hcoll, hdb, routesApp, aggregateRoute, hmiss, respJ]
  · constructor <;>
      simp [handleApp, hm, hp, hauth, hcoll, hdb, routesApp, insertRoute, hmiss, respJ]
  · rcases hd : getEntry req.body "documents" with _ | v
    · constructor <;>
        simp [handleApp, hm, hp, hauth, hcoll, hdb, routesApp, insertManyRoute, hd, respJ]
    · cases v with
      | varr ds =>
          rw [hd] at hmiss
          simp [isNonEmptyArray, List.isEmpty_iff] at hmiss
          constructor <;>
            simp [handleApp, hm, hp, hauth, hcoll, hdb, routesApp, insertManyRoute, hd,
              hmiss, respJ]
      | _ =>
          constructor <;>
            simp [handleApp, hm, hp, hauth, hcoll, hdb, routesApp, insertManyRoute, hd, respJ]
  · have hg : (truthyOpt (getEntry req.body "id") && truthyOpt (getEntry req.body "update")) = false := by
      rcases hmiss with hm1 | hm1 <;> simp [hm1]
    constructor <;>
      simp [handleApp, hm, hp, hauth, hcoll, hdb, routesApp, updateRoute, hg, respJ]
  · constructor <;>
      simp [handleApp, hm, hp, hauth, hcoll, hdb, routesApp, deleteByIdRoute, hmiss, respJ]

/-- Witness for C4: a concrete authorized `POST /aggregate` without a
pipeline is answered 400 without any client call. -/
theorem claim4_missing_param_400_witness :
    (handleApp ⟨["t"]⟩ noFail ⟨[], 0⟩
        ⟨"POST", "/aggregate", some "Bearer t",
          [("dbName", .vstr "d"), ("collectionName", .vstr "c")]⟩).resp
      = respJ 400 (errBody "Missing collection or pipeline param")
    ∧ (handleApp ⟨["t"]⟩ noFail ⟨[], 0⟩
        ⟨"POST", "/aggregate", some "Bearer t",
          [("dbName", .vstr "d"), ("collectionName", .vstr "c")]⟩).run
      = some ⟨⟨[], 0⟩, 0, []⟩ :=
  (claim4_missing_param_400 ⟨["t"]⟩ noFail ⟨[], 0⟩
    ⟨"POST", "/aggregate", some "Bearer t",
      [("dbName", .vstr "d"), ("collectionName", .vstr "c")]⟩
    (by decide) (by decide) (by decide)).1 rfl rfl (by decide)

/-! ## Claim C5 -/

/-- Counterexample to C5 as stated: with `pageSize = 0` the claim's
effective limit is 0, but the code treats 0 as falsy and defaults the
cursor limit to 10, so a one-document collection yields one result —
exceeding the claim's limit. -/
theorem claim5_pageSize_zero_cex :
    ¬ ((respArrLen (handleApp ⟨["t"]⟩ noFail
          ⟨[("d", [("c", [[("name", JVal.vstr "A")]])])], 0⟩
          ⟨"POST", "/find", some "Bearer t",
            [("dbName", .vstr "d"), ("collectionName", .vstr "c"),
             ("pageSize", .vnum 0)]⟩) : Int)
        ≤ specFindLimit (some (.vnum 0))) := by decide

theorem findLimit_ne_zero (ps : Option JVal) : findLimit ps ≠ 0 := by
  unfold findLimit
  repeat' split
  all_goals simp_all

theorem limitTake_length_le (lim : Int) (hne : lim ≠ 0) (l : List Doc) :
    (limitTake lim l).length ≤ lim.natAbs := by
  simp only [limitTake, if_neg hne]
  exact List.length_take_le _ _

/-- Claim C5 as amended: `/find` skips `page × pageSize` documents
(0 when `page` is absent) and limits to `pageSize` documents, the limit
defaulting to 10 when `pageSize` is absent, not a number, OR falsy
(in particular 0); the returned array's length never exceeds the
absolute value of the effective limit. -/
theorem claim5_amended_pagination :
    (∀ ps, findSkip none ps = JsNum.int 0)
    ∧ findLimit none = 10
    ∧ (∀ v, toNumber (some v) = .nan → findLimit (some v) = 10)
    ∧ (∀ v, truthy v = false → findLimit (some v) = 10)
    ∧ (∀ (env : Env) (st : DbState) (req : Request) (dbn coln : String) (s : Int),
        req.method = "POST" → req.path = "/find" →
        authOk env req.authorization = true →
        getEntry req.body "dbName" = some (.vstr dbn) → dbn ≠ "" →
        getEntry req.body "collectionName" = some (.vstr coln) → coln ≠ "" →
        findSkip (getEntry req.body "page") (getEntry req.body "pageSize") = .int s →
        0 ≤ s →
        (handleApp env noFail st req).resp
          = respJ 200 (.varr ((limitTake (findLimit (getEntry req.body "pageSize"))
              (((getDocs st dbn coln).filter
                  (docMatches (filterOr (getEntry req.body "filter")))).drop s.toNat)).map .vobj))
        ∧ respArrLen (handleApp env noFail st req)
            ≤ (findLimit (getEntry req.body "pageSize")).natAbs) := by
  refine ⟨fun ps => rfl, rfl, fun v h => by simp [findLimit, h],
    fun v h => by simp [findLimit, truthyOpt, h], ?_⟩
  intro env st req dbn coln s hm hp hauth hdbf hdbne hcolf hcolne hskip hs
  have hcoll : truthyOpt (getEntry req.body "collectionName") = true := by
    rw [hcolf]; simp [truthyOpt, truthy, hcolne]
  have hdb : truthyOpt (getEntry req.body "dbName") = true := by
    rw [hdbf]; simp [truthyOpt, truthy, hdbne]
  have hresp : (handleApp env noFail st req).resp
      = respJ 200 (.varr ((limitTake (findLimit (getEntry req.body "pageSize"))
          (((getDocs st dbn coln).filter
              (docMatches (filterOr (getEntry req.body "filter")))).drop s.toNat)).map .vobj)) := by
    simp [handleApp, hm, hp, hauth, hcoll, hdb, routesApp, findRoute, dbCall, noFail,
      opCount, opFind, hdbf, hcolf, hskip, Int.not_lt.mpr hs, jname, respJ,
      truthyOpt, truthy, hcolne, hdbne]
  refine ⟨hresp, ?_⟩
  rw [respArrLen, hresp]
  simp only [respJ, List.length_map]
  exact limitTake_length_le _ (findLimit_ne_zero _) _

/-- Witness for C5 (amended): a concrete `/find` with `page = 1`,
`pageSize = 2` over an empty store. -/
theorem claim5_amended_pagination_witness :
    (handleApp ⟨["t"]⟩ noFail ⟨[], 0⟩
        ⟨"POST", "/find", some "Bearer t",
          [("dbName", .vstr "d"), ("collectionName", .vstr "c"),
           ("page", .vnum 1), ("pageSize", .vnum 2)]⟩).resp
      = respJ 200 (.varr ((limitTake
          (findLimit (getEntry [("dbName", JVal.vstr "d"), ("collectionName", JVal.vstr "c"),
            ("page", JVal.vnum 1), ("pageSize", JVal.vnum 2)] "pageSize"))
          (((getDocs ⟨[], 0⟩ "d" "c").filter
              (docMatches (filterOr (getEntry [("dbName", JVal.vstr "d"),
                ("collectionName", JVal.vstr "c"), ("page", JVal.vnum 1),
                ("pageSize", JVal.vnum 2)] "filter")))).drop (Int.toNat 2))).map .vobj))
    ∧ respArrLen (handleApp ⟨["t"]⟩ noFail ⟨[], 0⟩
        ⟨"POST", "/find", some "Bearer t",
          [("dbName", .vstr "d"), ("collectionName", .vstr "c"),
           ("page", .vnum 1), ("pageSize", .vnum 2)]⟩)
      ≤ (findLimit (getEntry [("dbName", JVal.vstr "d"), ("collectionName", JVal.vstr "c"),
          ("page", JVal.vnum 1), ("pageSize", JVal.vnum 2)] "pageSize")).natAbs :=
  claim5_amended_pagination.2.2.2.2 ⟨["t"]⟩ ⟨[], 0⟩
    ⟨"POST", "/find", some "Bearer t",
      [("dbName", .vstr "d"), ("collectionName", .vstr "c"),
       ("page", .vnum 1), ("pageSize", .vnum 2)]⟩ "d" "c" 2
    rfl rfl (by decide) rfl (by decide) rfl (by decide) rfl (by decide)

/-! ## Claim C6 -/

/-- Counterexample to C6 as stated: a single authorized, well-formed
`POST /find` invokes TWO operations of the database client (a count,
then the find), not exactly one. -/
theorem claim6_find_two_ops_cex :
    ¬ ((runTrace (handleApp ⟨["t"]⟩ noFail ⟨[], 0⟩
          ⟨"POST", "/find", some "Bearer t",
            [("dbName", .vstr "d"), ("collectionName", .vstr "c")]⟩)).map List.length
        = some 1) := by decide

/-- Claim C6 as amended: each verb+path maps to a fixed sequence of
client operations: every operation route issues exactly one primary
data operation, except that `/find` precedes its fetch with a count
and `/create` follows collection creation with index-creation calls
when requested. -/
theorem claim6_amended_route_traces (env : Env) (st : DbState) (req : Request)
    (dbn coln : String)
    (hauth : authOk env req.authorization = true)
    (hdbf : getEntry req.body "dbName" = some (.vstr dbn)) (hdbne : dbn ≠ "")
    (hcolf : getEntry req.body "collectionName" = some (.vstr coln)) (hcolne : coln ≠ "") :
    (req.method = "POST" → req.path = "/create" → collExists st dbn coln = false →
      runTrace (handleApp env noFail st req)
        = some ([DbOp.createCollection dbn coln]
            ++ (if truthyOpt (getEntry req.body "index") = true
                then [DbOp.createIndex dbn coln] else [])
            ++ (if truthyOpt (getEntry req.body "searchIndex") = true
                then [DbOp.createSearchIndex dbn coln] else [])))
    ∧ (req.method = "DELETE" → req.path = "/delete" → collExists st dbn coln = true →
      runTrace (handleApp env noFail st req) = some [DbOp.dropColl dbn coln])
    ∧ (∀ s : Int, req.method = "POST" → req.path = "/find" →
      findSkip (getEntry req.body "page") (getEntry req.body "pageSize") = .int s → 0 ≤ s →
      runTrace (handleApp env noFail st req) = some [DbOp.count dbn coln, DbOp.find dbn coln])
    ∧ (req.method = "POST" → req.path = "/aggregate" →
      truthyOpt (getEntry req.body "pipeline") = true →
      runTrace (handleApp env noFail st req) = some [DbOp.aggregate dbn coln])
    ∧ (req.method = "POST" → req.path = "/insert" →
      truthyOpt (getEntry req.body "document") = true →
      runTrace (handleApp env noFail st req) = some [DbOp.insertOne dbn coln])
    ∧ (∀ ds, req.method = "POST" → req.path = "/insertMany" →
      getEntry req.body "documents" = some (.varr ds) → ds ≠ [] →
      runTrace (handleApp env noFail st req) = some [DbOp.insertMany dbn coln])
    ∧ (∀ ov, req.method = "POST" → req.path = "/findByIdAndUpdate" →
      truthyOpt (getEntry req.body "id") = true →
      truthyOpt (getEntry req.body "update") = true →
      objectIdOf ((getEntry req.body "id").getD .vnull) = .ok ov →
      runTrace (handleApp env noFail st req) = some [DbOp.findOneAndUpdate dbn coln])
    ∧ (∀ ov, req.method = "DELETE" → req.path = "/findByIdAndDelete" →
      truthyOpt (getEntry req.body "id") = true →
      objectIdOf ((getEntry req.body "id").getD .vnull) = .ok ov →
      runTrace (handleApp env noFail st req) = some [DbOp.findOneAndDelete dbn coln]) := by
  have hcoll : truthyOpt (getEntry req.body "collectionName") = true := by
    rw [hcolf]; simp [truthyOpt, truthy, hcolne]
  have hdb : truthyOpt (getEntry req.body "dbName") = true := by
    rw [hdbf]; simp [truthyOpt, truthy, hdbne]
  have hcoll2 : truthyOpt (some (JVal.vstr coln)) = true := by
    simp [truthyOpt, truthy, hcolne]
  have hdb2 : truthyOpt (some (JVal.vstr dbn)) = true := by
    simp [truthyOpt, truthy, hdbne]
  refine ⟨fun hm hp hex => ?_, fun hm hp hex => ?_, fun s hm hp hskip hs => ?_,
    fun hm hp hpl => ?_, fun hm hp hdoc => ?_, fun ds hm hp hds hne => ?_,
    fun ov hm hp hid hupd hoid => ?_, fun ov hm hp hid hoid => ?_⟩
  · by_cases hidx : truthyOpt (getEntry req.body "index") = true <;>
      by_cases hsx : truthyOpt (getEntry req.body "searchIndex") = true <;>
      simp [handleApp, hm, hp, hauth, hcoll, hdb, hcoll2, hdb2, routesApp, createRoute,
        maybeIndexCall, dbCall, noFail, opCreateCollection, hex, hidx, hsx, hdbf, hcolf,
        jname, runTrace, respJ]
  · simp [handleApp, hm, hp, hauth, hcoll, hdb, hcoll2, hdb2, routesApp, deleteRoute,
      dbCall, noFail, opDrop, hex, hdbf, hcolf, jname, runTrace, respJ]
  · simp [handleApp, hm, hp, hauth, hcoll, hdb, hcoll2, hdb2, routesApp, findRoute,
      dbCall, noFail, opCount, opFind, hskip, Int.not_lt.mpr hs, hdbf, hcolf, jname,
      runTrace, respJ]
  · simp [handleApp, hm, hp, hauth, hcoll, hdb, hcoll2, hdb2, routesApp, aggregateRoute,
      dbCall, noFail, opAggregate, hpl, hdbf, hcolf, jname, runTrace, respJ]
  · simp [handleApp, hm, hp, hauth, hcoll, hdb, hcoll2, hdb2, routesApp, insertRoute,
      dbCall, noFail, opInsertOne, hdoc, hdbf, hcolf, jname, runTrace, respJ]
  · simp [handleApp, hm, hp, hauth, hcoll, hdb, hcoll2, hdb2, routesApp, insertManyRoute,
      dbCall, noFail, opInsertMany, hds, hne, hdbf, hcolf, jname, runTrace, respJ]
  · simp [handleApp, hm, hp, hauth, hcoll, hdb, hcoll2, hdb2, routesApp, updateRoute,
      dbCall, noFail, opFindOneAndUpdate, hid, hupd, hoid, hdbf, hcolf, jname,
      runTrace, respJ]
  · simp [handleApp, hm, hp, hauth, hcoll, hdb, hcoll2, hdb2, routesApp, deleteByIdRoute,
      dbCall, noFail, opFindOneAndDelete, hid, hoid, hdbf, hcolf, jname, runTrace, respJ]

/-- Witness for C6 (amended): a concrete authorized `POST /insert`
issues exactly the single insertOne call. -/
theorem claim6_amended_route_traces_witness :
    runTrace (handleApp ⟨["t"]⟩ noFail ⟨[], 0⟩
        ⟨"POST", "/insert", some "Bearer t",
          [("dbName", .vstr "d"), ("collectionName", .vstr "c"),
           ("document", .vobj [("name", .vstr "Alice")])]⟩)
      = some [DbOp.insertOne "d" "c"] :=
  (claim6_amended_route_traces ⟨["t"]⟩ ⟨[], 0⟩
    ⟨"POST", "/insert", some "Bearer t",
      [("dbName", .vstr "d"), ("collectionName", .vstr "c"),
       ("document", .vobj [("name", .vstr "Alice")])]⟩ "d" "c"
    (by decide) rfl (by decide) rfl (by decide)).2.2.2.2.1 rfl rfl (by decide)

/-! ## Claim C7 -/

theorem getDocs_putDocs (st : DbState) (dbn coln : String) (docs : List Doc) :
    getDocs (putDocs st dbn coln docs) dbn coln = docs := by
  simp [getDocs, putDocs, getEntry_setEntry_self]

/-- Claim C7: `POST /create` answers 201 with a message naming the
created collection; `POST /insert` answers 201 with a result whose
insertedId is the id under which the document was stored; `POST
/insertMany` answers 201 with a result whose insertedCount equals the
number of supplied documents. -/
theorem claim7_create_insert_results (env : Env) (st : DbState) (req : Request)
    (dbn coln : String)
    (hauth : authOk env req.authorization = true)
    (hdbf : getEntry req.body "dbName" = some (.vstr dbn)) (hdbne : dbn ≠ "")
    (hcolf : getEntry req.body "collectionName" = some (.vstr coln)) (hcolne : coln ≠ "") :
    (req.method = "POST" → req.path = "/create" → collExists st dbn coln = false →
      (handleApp env noFail st req).resp
        = respJ 201 (.vobj [("message", .vstr ("Collection " ++ coln ++ " created"))]))
    ∧ (∀ d, req.method = "POST" → req.path = "/insert" →
      getEntry req.body "document" = some (.vobj d) →
      ∃ idv d',
        (handleApp env noFail st req).resp
          = respJ 201 (.vobj [("acknowledged", .vbool true), ("insertedId", idv)])
        ∧ runDocs (handleApp env noFail st req) dbn coln = getDocs st dbn coln ++ [d']
        ∧ getEntry d' "_id" = some idv)
    ∧ (∀ ds, req.method = "POST" → req.path = "/insertMany" →
      getEntry req.body "documents" = some (.varr ds) → ds ≠ [] →
      (handleApp env noFail st req).resp
        = respJ 201 (.vobj [("acknowledged", .vbool true), ("insertedCount", .vnum ds.length)])) := by
  have hcoll : truthyOpt (getEntry req.body "collectionName") = true := by
    rw [hcolf]; simp [truthyOpt, truthy, hcolne]
  have hdb : truthyOpt (getEntry req.body "dbName") = true := by
    rw [hdbf]; simp [truthyOpt, truthy, hdbne]
  have hcoll2 : truthyOpt (some (JVal.vstr coln)) = true := by
    simp [truthyOpt, truthy, hcolne]
  have hdb2 : truthyOpt (some (JVal.vstr dbn)) = true := by
    simp [truthyOpt, truthy, hdbne]
  refine ⟨fun hm hp hex => ?_, fun d hm hp hdocf => ?_, fun ds hm hp hds hne => ?_⟩
  · by_cases hidx : truthyOpt (getEntry req.body "index") = true <;>
      by_cases hsx : truthyOpt (getEntry req.body "searchIndex") = true <;>
      simp [handleApp, hm, hp, hauth, hcoll, hdb, hcoll2, hdb2, routesApp, createRoute,
        maybeIndexCall, dbCall, noFail, opCreateCollection, hex, hidx, hsx, hdbf, hcolf,
        jname, respJ]
  · have hdoc : truthyOpt (getEntry req.body "document") = true := by
      rw [hdocf]; simp [truthyOpt, truthy]
    rcases hgid : getEntry d "_id" with _ | v
    · refine ⟨.oid (freshHex st.nextId), d ++ [("_id", .oid (freshHex st.nextId))], ?_, ?_, ?_⟩
      · simp [handleApp, hm, hp, hauth, hcoll, hdb, hcoll2, hdb2, routesApp, insertRoute,
          dbCall, noFail, opInsertOne, insertDoc, hdoc, hdocf, hgid, hdbf, hcolf, jname,
          respJ, truthyOpt, truthy, hcolne, hdbne]
      · simp [handleApp, hm, hp, hauth, hcoll, hdb, hcoll2, hdb2, routesApp, insertRoute,
          dbCall, noFail, opInsertOne, insertDoc, hdoc, hdocf, hgid, hdbf, hcolf, jname,
          respJ, runDocs, getDocs_putDocs, truthyOpt, truthy, hcolne, hdbne]
      · rw [getEntry_append_of_none _ _ _ hgid]
        simp [getEntry]
    · refine ⟨v, d, ?_, ?_, hgid⟩
      · simp [handleApp, hm, hp, hauth, hcoll, hdb, hcoll2, hdb2, routesApp, insertRoute,
          dbCall, noFail, opInsertOne, insertDoc, hdoc, hdocf, hgid, hdbf, hcolf, jname,
          respJ, truthyOpt, truthy, hcolne, hdbne]
      · simp [handleApp, hm, hp, hauth, hcoll, hdb, hcoll2, hdb2, routesApp, insertRoute,
          dbCall, noFail, opInsertOne, insertDoc, hdoc, hdocf, hgid, hdbf, hcolf, jname,
          respJ, runDocs, getDocs_putDocs, truthyOpt, truthy, hcolne, hdbne]
  · simp [handleApp, hm, hp, hauth, hcoll, hdb, hcoll2, hdb2, routesApp, insertManyRoute,
      dbCall, noFail, opInsertMany, hds, hne, hdbf, hcolf, jname, respJ]

/-- Witness for C7: a concrete `POST /insertMany` of two documents
answers 201 with insertedCount 2. -/
theorem claim7_create_insert_results_witness :
    (handleApp ⟨["t"]⟩ noFail ⟨[], 0⟩
        ⟨"POST", "/insertMany", some "Bearer t",
          [("dbName", .vstr "d"), ("collectionName", .vstr "c"),
           ("documents", .varr [.vobj [("a", .vnum 1)], .vobj [("b", .vnum 2)]])]⟩).resp
      = respJ 201 (.vobj [("acknowledged", .vbool true),
          ("insertedCount", .vnum ([JVal.vobj [("a", JVal.vnum 1)],
            JVal.vobj [("b", JVal.vnum 2)]].length))]) :=
  (claim7_create_insert_results ⟨["t"]⟩ ⟨[], 0⟩
    ⟨"POST", "/insertMany", some "Bearer t",
      [("dbName", .vstr "d"), ("collectionName", .vstr "c"),
       ("documents", .varr [.vobj [("a", .vnum 1)], .vobj [("b", .vnum 2)]])]⟩ "d" "c"
    (by decide) rfl (by decide) rfl (by decide)).2.2
    [.vobj [("a", .vnum 1)], .vobj [("b", .vnum 2)]] rfl rfl rfl (by simp)

/-! ## Claim C8 (code bug) -/

/-- Claim C8 is contradicted by `src/unnamed/part_000`: its
`PUT /findByIdAndUpdate` (line 141) builds the filter `{ _id: id }`
from the RAW request id with no ObjectId coercion (the file does not
even import ObjectId).  With a stored document whose native `_id` is
`ObjectId("507f1f77bcf86cd799439011")` and the request id being that
same hex string — exactly what the repository's own test does after an
insert — the legacy route matches NOTHING: it answers
`{ value: null }` and leaves the store unchanged, while the
`src/src/app.js` route on the same data coerces the id, returns the
matched document and applies the update. -/
theorem claim8_legacy_id_not_coerced :
    legacyUpdateRoute noFail (some (.vstr "c"))
        (some (.vstr "507f1f77bcf86cd799439011"))
        (some (.vobj [("age", .vnum 41)]))
        ⟨⟨[("", [("c", [[("_id", JVal.oid "507f1f77bcf86cd799439011"),
            ("name", JVal.vstr "David"), ("age", JVal.vnum 40)]])])], 9⟩, 0, []⟩
      = .ok (respJ 200 (.vobj [("value", .vnull)]),
          ⟨⟨[("", [("c", [[("_id", JVal.oid "507f1f77bcf86cd799439011"),
              ("name", JVal.vstr "David"), ("age", JVal.vnum 40)]])])], 9⟩, 1,
           [DbOp.findOneAndUpdate "" "c"]⟩)
    ∧ (handleApp ⟨["t"]⟩ noFail
        ⟨[("d", [("c", [[("_id", JVal.oid "507f1f77bcf86cd799439011"),
            ("name", JVal.vstr "David"), ("age", JVal.vnum 40)]])])], 9⟩
        ⟨"POST", "/findByIdAndUpdate", some "Bearer t",
          [("dbName", .vstr "d"), ("collectionName", .vstr "c"),
           ("id", .vstr "507f1f77bcf86cd799439011"),
           ("update", .vobj [("age", .vnum 41)])]⟩).resp
      = respJ 200 (.vobj [("value", .vobj [("_id", JVal.oid "507f1f77bcf86cd799439011"),
          ("name", JVal.vstr "David"), ("age", JVal.vnum 40)])])
    ∧ runDocs (handleApp ⟨["t"]⟩ noFail
        ⟨[("d", [("c", [[("_id", JVal.oid "507f1f77bcf86cd799439011"),
            ("name", JVal.vstr "David"), ("age", JVal.vnum 40)]])])], 9⟩
        ⟨"POST", "/findByIdAndUpdate", some "Bearer t",
          [("dbName", .vstr "d"), ("collectionName", .vstr "c"),
           ("id", .vstr "507f1f77bcf86cd799439011"),
           ("update", .vobj [("age", .vnum 41)])]⟩) "d" "c"
      = [[("_id", JVal.oid "507f1f77bcf86cd799439011"),
          ("name", JVal.vstr "David"), ("age", JVal.vnum 41)]] :=
  ⟨rfl, rfl, rfl⟩

/-! ## Claim C9 -/

theorem getEntry_append_single_ne (l : Doc) (k0 k : String) (v : JVal) (h : k ≠ k0) :
    getEntry (l ++ [(k0, v)]) k = getEntry l k := by
  cases he : getEntry l k with
  | some w => rw [getEntry_append_of_some _ _ _ _ he]
  | none =>
      rw [getEntry_append_of_none _ _ _ he]
      have h2 : ¬ k0 = k := fun hh => h hh.symm
      simp [getEntry, he, h2]

/-- Claim C9: in the timestamping variant (`part_001`), `POST /insert`
stores the request document extended with `createdAt` and `updatedAt`
both set to the same insertion time, all other fields (and a
client-supplied `_id`) preserved unchanged; `POST /findByIdAndUpdate`
additionally refreshes `updatedAt` in its `$set` object. -/
theorem claim9_ts_timestamps (env : Env) (st : DbState) (req : Request)
    (dbn coln : String) (now : Nat)
    (hauth : authOk env req.authorization = true)
    (hdbf : getEntry req.body "dbName" = some (.vstr dbn)) (hdbne : dbn ≠ "")
    (hcolf : getEntry req.body "collectionName" = some (.vstr coln)) (hcolne : coln ≠ "") :
    (∀ d, req.method = "POST" → req.path = "/insert" →
      getEntry req.body "document" = some (.vobj d) →
      ∃ d',
        runDocs (handleTs env noFail now st req) dbn coln = getDocs st dbn coln ++ [d']
        ∧ getEntry d' "createdAt" = some (.vdate now)
        ∧ getEntry d' "updatedAt" = some (.vdate now)
        ∧ (∀ k, k ≠ "createdAt" → k ≠ "updatedAt" → k ≠ "_id" →
            getEntry d' k = getEntry d k)
        ∧ (∀ v, getEntry d "_id" = some v → getEntry d' "_id" = some v))
    ∧ (∀ u ov d0, req.method = "POST" → req.path = "/findByIdAndUpdate" →
      truthyOpt (getEntry req.body "id") = true →
      getEntry req.body "update" = some (.vobj u) →
      (u.map Prod.fst).Nodup →
      objectIdOf ((getEntry req.body "id").getD .vnull) = .ok ov →
      (getDocs st dbn coln).find? (docMatches (.vobj [("_id", ov)])) = some d0 →
      runDocs (handleTs env noFail now st req) dbn coln
        = updateFirst (docMatches (.vobj [("_id", ov)]))
            (fun x => applySet x (setEntry u "updatedAt" (.vdate now))) (getDocs st dbn coln)
      ∧ getEntry (applySet d0 (setEntry u "updatedAt" (.vdate now))) "updatedAt"
          = some (.vdate now)) := by
  have hcoll : truthyOpt (getEntry req.body "collectionName") = true := by
    rw [hcolf]; simp [truthyOpt, truthy, hcolne]
  have hdb : truthyOpt (getEntry req.body "dbName") = true := by
    rw [hdbf]; simp [truthyOpt, truthy, hdbne]
  have hcoll2 : truthyOpt (some (JVal.vstr coln)) = true := by
    simp [truthyOpt, truthy, hcolne]
  have hdb2 : truthyOpt (some (JVal.vstr dbn)) = true := by
    simp [truthyOpt, truthy, hdbne]
  constructor
  · intro d hm hp hdocf
    have hdoc : truthyOpt (getEntry req.body "document") = true := by
      rw [hdocf]; simp [truthyOpt, truthy]
    have hcne : "createdAt" ≠ "updatedAt" := by decide
    have hine : ("_id" : String) ≠ "updatedAt" := by decide
    have hine2 : ("_id" : String) ≠ "createdAt" := by decide
    have hgid2 : getEntry (setEntry (setEntry d "createdAt" (.vdate now))
        "updatedAt" (.vdate now)) "_id" = getEntry d "_id" := by
      rw [getEntry_setEntry_ne _ _ _ _ hine, getEntry_setEntry_ne _ _ _ _ hine2]
    have hcreated : getEntry (setEntry (setEntry d "createdAt" (.vdate now))
        "updatedAt" (.vdate now)) "createdAt" = some (.vdate now) := by
      rw [getEntry_setEntry_ne _ _ _ _ hcne, getEntry_setEntry_self]
    have hupdated : getEntry (setEntry (setEntry d "createdAt" (.vdate now))
        "updatedAt" (.vdate now)) "updatedAt" = some (.vdate now) :=
      getEntry_setEntry_self _ _ _
    have hframe : ∀ k, k ≠ "createdAt" → k ≠ "updatedAt" →
        getEntry (setEntry (setEntry d "createdAt" (.vdate now))
          "updatedAt" (.vdate now)) k = getEntry d k := by
      intro k hk1 hk2
      rw [getEntry_setEntry_ne _ _ _ _ hk2, getEntry_setEntry_ne _ _ _ _ hk1]
    rcases hgid : getEntry d "_id" with _ | v
    · rw [hgid] at hgid2
      refine ⟨setEntry (setEntry d "createdAt" (.vdate now)) "updatedAt" (.vdate now)
          ++ [("_id", .oid (freshHex st.nextId))], ?_, ?_, ?_, ?_, ?_⟩
      · simp [handleTs, hm, hp, hauth, hcoll, hdb, hcoll2, hdb2, routesTs, tsInsertRoute,
          dbCall, noFail, opInsertOne, insertDoc, hdoc, hdocf, hgid2, hdbf, hcolf, jname,
          respJ, runDocs, getDocs_putDocs, truthyOpt, truthy, hcolne, hdbne]
      · rw [getEntry_append_of_some _ _ _ _ hcreated]
      · rw [getEntry_append_of_some _ _ _ _ hupdated]
      · intro k hk1 hk2 hk3
        rw [getEntry_append_single_ne _ _ _ _ hk3, hframe k hk1 hk2]
      · intro v hv
        cases hv
    · rw [hgid] at hgid2
      refine ⟨setEntry (setEntry d "createdAt" (.vdate now)) "updatedAt" (.vdate now),
          ?_, hcreated, hupdated, fun k hk1 hk2 _ => hframe k hk1 hk2, fun w hw => ?_⟩
      · simp [handleTs, hm, hp, hauth, hcoll, hdb, hcoll2, hdb2, routesTs, tsInsertRoute,
          dbCall, noFail, opInsertOne, insertDoc, hdoc, hdocf, hgid2, hdbf, hcolf, jname,
          respJ, runDocs, getDocs_putDocs, truthyOpt, truthy, hcolne, hdbne]
      · cases hw
        exact hgid2
  · intro u ov d0 hm hp hid hupdf hnd hoid hfind
    have hupd : truthyOpt (getEntry req.body "update") = true := by
      rw [hupdf]; simp [truthyOpt, truthy]
    have hobj : truthyOpt (some (JVal.vobj u)) = true := by simp [truthyOpt, truthy]
    constructor
    · simp [handleTs, hm, hp, hauth, hcoll, hdb, hcoll2, hdb2, routesTs, tsUpdateRoute,
        dbCall, noFail, opFindOneAndUpdate, hid, hupd, hobj, hupdf, hoid, hfind, hdbf,
        hcolf, jname, respJ, runDocs, getDocs_putDocs, applyUpdateDocument, getEntry]
    · exact applySet_getEntry_mem _ _ _ _ (nodup_keys_setEntry _ _ _ hnd)
        (getEntry_setEntry_self _ _ _)

/-- Witness for C9: a concrete timestamped insert of `{name: "Alice"}`
at time 777 stores createdAt and updatedAt 777. -/
theorem claim9_ts_timestamps_witness :
    ∃ d', runDocs (handleTs ⟨["t"]⟩ noFail 777 ⟨[], 0⟩
        ⟨"POST", "/insert", some "Bearer t",
          [("dbName", .vstr "d"), ("collectionName", .vstr "c"),
           ("document", .vobj [("name", .vstr "Alice")])]⟩) "d" "c"
      = getDocs ⟨[], 0⟩ "d" "c" ++ [d']
    ∧ getEntry d' "createdAt" = some (.vdate 777)
    ∧ getEntry d' "updatedAt" = some (.vdate 777)
    ∧ (∀ k, k ≠ "createdAt" → k ≠ "updatedAt" → k ≠ "_id" →
        getEntry d' k = getEntry [("name", JVal.vstr "Alice")] k)
    ∧ (∀ v, getEntry [("name", JVal.vstr "Alice")] "_id" = some v →
        getEntry d' "_id" = some v) :=
  (claim9_ts_timestamps ⟨["t"]⟩ ⟨[], 0⟩
    ⟨"POST", "/insert", some "Bearer t",
      [("dbName", .vstr "d"), ("collectionName", .vstr "c"),
       ("document", .vobj [("name", .vstr "Alice")])]⟩ "d" "c" 777
    (by decide) rfl (by decide) rfl (by decide)).1
    [("name", .vstr "Alice")] rfl rfl rfl

/-! ## Claim C10 -/

theorem keys_setEntry_subset {α : Type} (l : List (String × α)) (k0 : String) (v : α)
    (k : String) (hk : k ∈ (setEntry l k0 v).map Prod.fst) :
    k ∈ l.map Prod.fst ∨ k = k0 := by
  rw [keys_setEntry_eq] at hk
  by_cases hmem : k0 ∈ l.map Prod.fst
  · rw [if_pos hmem] at hk
    exact Or.inl hk
  · rw [if_neg hmem] at hk
    rcases List.mem_append.mp hk with h1 | h1
    · exact Or.inl h1
    · simp only [List.mem_singleton] at h1
      exact Or.inr h1

/-- Claim C10: `/findByIdAndUpdate` applies the client's update through
a `$set` modifier: the matched document is rewritten field-by-field and
every field not named in the update object keeps its previous value
(apart from `updatedAt` in the timestamping variant); the whole
document is never replaced. -/
theorem claim10_update_set_frame (env : Env) (st : DbState) (req : Request)
    (dbn coln : String)
    (hauth : authOk env req.authorization = true)
    (hdbf : getEntry req.body "dbName" = some (.vstr dbn)) (hdbne : dbn ≠ "")
    (hcolf : getEntry req.body "collectionName" = some (.vstr coln)) (hcolne : coln ≠ "") :
    (∀ u ov d0, req.method = "POST" → req.path = "/findByIdAndUpdate" →
      truthyOpt (getEntry req.body "id") = true →
      getEntry req.body "update" = some (.vobj u) →
      objectIdOf ((getEntry req.body "id").getD .vnull) = .ok ov →
      (getDocs st dbn coln).find? (docMatches (.vobj [("_id", ov)])) = some d0 →
      runDocs (handleApp env noFail st req) dbn coln
        = updateFirst (docMatches (.vobj [("_id", ov)]))
            (fun x => applySet x u) (getDocs st dbn coln)
      ∧ (∀ k, k ∉ u.map Prod.fst → getEntry (applySet d0 u) k = getEntry d0 k))
    ∧ (∀ (u d0 : Doc) (now : Nat) (k : String),
        k ∉ u.map Prod.fst → k ≠ "updatedAt" →
        getEntry (applySet d0 (setEntry u "updatedAt" (.vdate now))) k = getEntry d0 k) := by
  have hcoll : truthyOpt (getEntry req.body "collectionName") = true := by
    rw [hcolf]; simp [truthyOpt, truthy, hcolne]
  have hdb : truthyOpt (getEntry req.body "dbName") = true := by
    rw [hdbf]; simp [truthyOpt, truthy, hdbne]
  have hcoll2 : truthyOpt (some (JVal.vstr coln)) = true := by
    simp [truthyOpt, truthy, hcolne]
  have hdb2 : truthyOpt (some (JVal.vstr dbn)) = true := by
    simp [truthyOpt, truthy, hdbne]
  constructor
  · intro u ov d0 hm hp hid hupdf hoid hfind
    have hupd : truthyOpt (getEntry req.body "update") = true := by
      rw [hupdf]; simp [truthyOpt, truthy]
    have hobj : truthyOpt (some (JVal.vobj u)) = true := by simp [truthyOpt, truthy]
    constructor
    · simp [handleApp, hm, hp, hauth, hcoll, hdb, hcoll2, hdb2, routesApp, updateRoute,
        dbCall, noFail, opFindOneAndUpdate, hid, hupd, hobj, hupdf, hoid, hfind, hdbf,
        hcolf, jname, respJ, runDocs, getDocs_putDocs, applyUpdateDocument, getEntry]
    · exact fun k hk => applySet_getEntry_not_mem _ _ _ hk
  · intro u d0 now k hk hk2
    refine applySet_getEntry_not_mem _ _ _ fun hc => ?_
    rcases keys_setEntry_subset _ _ _ _ hc with h1 | h1
    · exact hk h1
    · exact hk2 h1

/-- Witness for C10: with a concrete matched document, updating
`{age: 41}` leaves `name` untouched and only rewrites `age`. -/
theorem claim10_update_set_frame_witness :
    runDocs (handleApp ⟨["t"]⟩ noFail
        ⟨[("d", [("c", [[("_id", JVal.oid "507f1f77bcf86cd799439011"),
            ("name", JVal.vstr "David"), ("age", JVal.vnum 40)]])])], 9⟩
        ⟨"POST", "/findByIdAndUpdate", some "Bearer t",
          [("dbName", .vstr "d"), ("collectionName", .vstr "c"),
           ("id", .oid "507f1f77bcf86cd799439011"),
           ("update", .vobj [("age", .vnum 41)])]⟩) "d" "c"
      = updateFirst (docMatches (.vobj [("_id", JVal.oid "507f1f77bcf86cd799439011")]))
          (fun x => applySet x [("age", JVal.vnum 41)])
          (getDocs ⟨[("d", [("c", [[("_id", JVal.oid "507f1f77bcf86cd799439011"),
            ("name", JVal.vstr "David"), ("age", JVal.vnum 40)]])])], 9⟩ "d" "c")
    ∧ (∀ k, k ∉ ([("age", JVal.vnum 41)].map Prod.fst) →
        getEntry (applySet [("_id", JVal.oid "507f1f77bcf86cd799439011"),
          ("name", JVal.vstr "David"), ("age", JVal.vnum 40)] [("age", JVal.vnum 41)]) k
          = getEntry [("_id", JVal.oid "507f1f77bcf86cd799439011"),
              ("name", JVal.vstr "David"), ("age", JVal.vnum 40)] k) :=
  (claim10_update_set_frame ⟨["t"]⟩
    ⟨[("d", [("c", [[("_id", JVal.oid "507f1f77bcf86cd799439011"),
        ("name", JVal.vstr "David"), ("age", JVal.vnum 40)]])])], 9⟩
    ⟨"POST", "/findByIdAndUpdate", some "Bearer t",
      [("dbName", .vstr "d"), ("collectionName", .vstr "c"),
       ("id", .oid "507f1f77bcf86cd799439011"),
       ("update", .vobj [("age", .vnum 41)])]⟩ "d" "c"
    (by decide) rfl (by decide) rfl (by decide)).1
    [("age", .vnum 41)] (.oid "507f1f77bcf86cd799439011")
    [("_id", JVal.oid "507f1f77bcf86cd799439011"),
     ("name", JVal.vstr "David"), ("age", JVal.vnum 40)]
    rfl rfl rfl rfl rfl rfl
